import Mathlib

/-!
Shallow embedding of the conversation/context engine of the A2Bot-next
repository (file src/plugins/openai/__init__.py): multimodal message
assembly, completion-call failure handling, per-session history trimming,
per-user settings update, and model capability inference.

Python strings are modelled as Lean String values; Python string methods
startswith / endswith / the in operator are modelled character-wise, which
matches their Python (code point based) semantics.  Network interactions
are modelled by explicit oracles: an image fetch oracle for
_fetch_image_base64 and an upstream-result value for the chat-completion
POST inside _call_openai.
-/

/-- Python `s.startswith(p)`: character-level prefix test. -/
def pyStartsWith (s p : String) : Bool := p.toList.isPrefixOf s.toList

/-- Python `s.endswith(p)`: character-level suffix test. -/
def pyEndsWith (s p : String) : Bool := p.toList.isSuffixOf s.toList

/-- Python `p in s` for strings: contiguous-substring test. -/
def pyContains (s p : String) : Bool := decide (p.toList <:+: s.toList)

/-- Python `s.strip()`: remove whitespace from both ends (character-wise,
structurally recursive so that concrete instances evaluate in the kernel). -/
def pyStrip (s : String) : String :=
  ⟨((s.toList.dropWhile Char.isWhitespace).reverse.dropWhile Char.isWhitespace).reverse⟩

/-- Python `s.lower()` (character-wise). -/
def pyLower (s : String) : String := ⟨s.toList.map Char.toLower⟩

/-- Python slicing `s[n:]` (by code points). -/
def pyDrop (s : String) (n : Nat) : String := ⟨s.toList.drop n⟩

/-- Python slicing `s[:n]` (by code points). -/
def pyTake (s : String) (n : Nat) : String := ⟨s.toList.take n⟩

/-- The constant MAX_CONTEXT_MESSAGES from the plugin. -/
def MAX_CONTEXT_MESSAGES : Nat := 20

/-- One content part of a multimodal turn: a text part
`\x7b"type": "text", "text": t\x7d` or an image part
`\x7b"type": "image_url", "image_url": \x7b"url": u\x7d\x7d`. -/
inductive ContentPart where
  | text (text : String)
  | imageUrl (url : String)
deriving DecidableEq

/-- Turn content: either a plain string or a list of content parts. -/
inductive Content where
  | str (s : String)
  | parts (ps : List ContentPart)
deriving DecidableEq

/-- A chat turn `\x7brole, content\x7d`. -/
structure Turn where
  role : String
  content : Content
deriving DecidableEq

/-- The data carried by an inbound image segment.  Absent keys of
`segment.data` are collapsed to "" exactly as the `or ""` defaults in
_build_image_part do. -/
structure ImageSegData where
  file : String
  base64 : String
  url : String
deriving DecidableEq

/-- An inbound message segment: text, image, or any other segment type
(`other`), which the assembler ignores. -/
inductive Segment where
  | text (text : String)
  | image (data : ImageSegData)
  | other
deriving DecidableEq

/-- Outcome of _fetch_image_base64 for a given URL: `ok encoded contentType`
models a successful GET whose body base64-encodes to `encoded` and whose
content-type header (already stripped of parameters) is `contentType`
("" when the header is absent); `err` models a raised exception. -/
inductive FetchOutcome where
  | ok (encoded : String) (contentType : String)
  | err
deriving DecidableEq

/-- _infer_image_mime: extension-based MIME inference with image/png
as the default. -/
def inferImageMime (fileValue : String) : String :=
  let lowered := pyLower fileValue
  if pyEndsWith lowered ".jpg" || pyEndsWith lowered ".jpeg" then "image/jpeg"
  else if pyEndsWith lowered ".gif" then "image/gif"
  else if pyEndsWith lowered ".webp" then "image/webp"
  else "image/png"

/-- The Python expression `mime or _infer_image_mime(file_value)`:
a None or empty MIME falls back to extension inference. -/
def mimeOrInferred (mime : Option String) (fileValue : String) : String :=
  match mime with
  | some m => if m = "" then inferImageMime fileValue else m
  | none => inferImageMime fileValue

/-- _normalize_image_data_url: pass through values that already are
data:image/ URIs, otherwise build a data URI around the base64 payload. -/
def normalizeImageDataUrl (fileValue base64Value : String) (mime : Option String) : String :=
  if pyStartsWith base64Value "data:image/" then base64Value
  else "data:" ++ mimeOrInferred mime fileValue ++ ";base64," ++ base64Value

/-- _build_image_part: resolve an image segment into an image content part,
or none when the segment carries no usable data or the fetch fails.
`fetch` is the oracle for _fetch_image_base64 (its `or None` on the
content type is modelled by the emptiness test on `contentType`). -/
def buildImagePart (fetch : String → FetchOutcome) (seg : ImageSegData) : Option ContentPart :=
  let base64Value :=
    if seg.base64 = "" && pyStartsWith seg.file "base64://" then pyDrop seg.file 9
    else seg.base64
  if base64Value ≠ "" then
    some (ContentPart.imageUrl (normalizeImageDataUrl seg.file base64Value none))
  else if seg.url = "" then none
  else
    match fetch seg.url with
    | FetchOutcome.err => none
    | FetchOutcome.ok encoded contentType =>
      if encoded = "" then none
      else
        some (ContentPart.imageUrl (normalizeImageDataUrl seg.url encoded
          (if contentType = "" then none else some contentType)))

/-- The _flush_text closure of _build_user_message: join the buffered text,
strip it, and append a text part when the result is nonempty. -/
def flushText (textBuffer : List String) (parts : List ContentPart) : List ContentPart :=
  if textBuffer = [] then parts
  else
    let text := pyStrip (String.join textBuffer)
    if text = "" then parts else parts ++ [ContentPart.text text]

/-- The segment loop of _build_user_message, made explicit over the text
buffer and the accumulated parts. -/
def assembleParts (fetch : String → FetchOutcome) :
    List Segment → List String → List ContentPart → List ContentPart
  | [], textBuffer, parts => flushText textBuffer parts
  | Segment.text t :: rest, textBuffer, parts =>
      assembleParts fetch rest (textBuffer ++ [t]) parts
  | Segment.image seg :: rest, textBuffer, parts =>
      match buildImagePart fetch seg with
      | some part => assembleParts fetch rest [] (flushText textBuffer parts ++ [part])
      | none => assembleParts fetch rest [] (flushText textBuffer parts)
  | Segment.other :: rest, textBuffer, parts =>
      assembleParts fetch rest textBuffer parts

/-- _build_user_message: assemble the parts, return none when empty,
collapse a single text part to scalar content, otherwise keep the array. -/
def buildUserMessage (fetch : String → FetchOutcome) (message : List Segment) : Option Turn :=
  match assembleParts fetch message [] [] with
  | [] => none
  | [ContentPart.text t] => some { role := "user", content := Content.str t }
  | parts => some { role := "user", content := Content.parts parts }

/-- Outcome of the POST to the chat-completions endpoint inside
_call_openai: `success content` models a 2xx response whose parsed body
yields `content` at choices[0].message.content; `httpStatusError` models
raise_for_status throwing httpx.HTTPStatusError with the given status code
and response body; `otherError` models any other exception (network
failure, malformed JSON, missing fields, timeout). -/
inductive UpstreamResult where
  | success (content : String)
  | httpStatusError (status : Nat) (body : String)
  | otherError
deriving DecidableEq

/-- Observable outcome of one _call_openai invocation: the returned reply
string, whether a network request was issued, and what the error branches
logged (status code, truncated body). -/
structure CallOutcome where
  reply : String
  networkCalled : Bool
  loggedStatus : Option Nat
  loggedBody : Option String
deriving DecidableEq

/-- The fixed missing-key notice returned by _call_openai. -/
def missingKeyNotice : String := "缺少 OPENAI_API_KEY 配置。"

/-- The upstream-error notice returned on a non-2xx status; note it embeds
the numeric status code via the f-string. -/
def upstreamErrorNotice (status : Nat) : String :=
  "上游返回错误 " ++ toString status ++ "，请稍后再试。"

/-- The generic notice returned on any other exception. -/
def transportErrorNotice : String := "请求 OpenAI 失败，请稍后再试。"

/-- The body truncation performed before logging a non-2xx response:
bodies over 1000 characters keep their first 1000 characters and get
"..." appended. -/
def truncateBody (body : String) : String :=
  if body.length > 1000 then pyTake body 1000 ++ "..." else body

/-- _call_openai(messages, model): short-circuit on a missing API key,
otherwise the outcome is determined by the upstream result.  `messages`
and `model` only feed the request payload, which the upstream oracle
abstracts, so they do not influence the outcome classification. -/
def callOpenai (messages : List Turn) (model : String) (apiKey : String)
    (upstream : UpstreamResult) : CallOutcome :=
  if apiKey = "" then
    { reply := missingKeyNotice, networkCalled := false,
      loggedStatus := none, loggedBody := none }
  else
    match upstream with
    | UpstreamResult.success content =>
        { reply := pyStrip content, networkCalled := true,
          loggedStatus := none, loggedBody := none }
    | UpstreamResult.httpStatusError status body =>
        { reply := upstreamErrorNotice status, networkCalled := true,
          loggedStatus := some status, loggedBody := some (truncateBody body) }
    | UpstreamResult.otherError =>
        { reply := transportErrorNotice, networkCalled := true,
          loggedStatus := none, loggedBody := none }

/-- The append-and-trim step shared by the chat and tome handlers:
append the user/assistant pair, then cut back to the most recent
MAX_CONTEXT_MESSAGES entries when the bound is exceeded. -/
def appendAndTrim (history : List Turn) (userMsg assistantMsg : Turn) : List Turn :=
  let appended := history ++ [userMsg, assistantMsg]
  if appended.length > MAX_CONTEXT_MESSAGES then
    appended.drop (appended.length - MAX_CONTEXT_MESSAGES)
  else appended

/-- The assistant turn appended by the handlers. -/
def assistantTurn (reply : String) : Turn :=
  { role := "assistant", content := Content.str reply }

/-- The persistence step of the chat and tome handlers: when the reply is
falsy (empty) nothing is saved (none); otherwise the appended-and-trimmed
history is saved (some). -/
def handlerPersist (history : List Turn) (userMsg : Turn) (reply : String) :
    Option (List Turn) :=
  if reply = "" then none
  else some (appendAndTrim history userMsg (assistantTurn reply))

/-- The stored history document after one handler run, given its previous
stored value: unchanged when the handler skipped persistence. -/
def contextAfterTurn (stored : List Turn) (userMsg : Turn) (reply : String) : List Turn :=
  match handlerPersist stored userMsg reply with
  | some newHistory => newHistory
  | none => stored

/-- _infer_model_features: capability tags inferred from the model
identifier.  The code renders the tags as the Chinese display strings
文本 (text), 视觉 (vision) and 思考 (reasoning). -/
def inferModelFeatures (modelId : String) : List String :=
  let lowered := pyLower modelId
  let features := ["文本"]
  let features :=
    if pyContains lowered "vision" || pyContains lowered "gpt-4o" then features ++ ["视觉"]
    else features
  if pyStartsWith lowered "o1" || pyContains lowered "reason" then features ++ ["思考"]
  else features

/-- A JSON value, the kind of data a user-settings document may hold. -/
inductive JsonValue where
  | str (s : String)
  | num (n : Int)
  | boolean (b : Bool)
  | null
  | arr (elems : List JsonValue)

/-- _set_user_model without the I/O around it: the settings document
(a key-to-value map) gets its "model" field rewritten, every other key
keeps the value the loaded document had. -/
def setUserModel (settings : String → Option JsonValue) (model : String) :
    String → Option JsonValue :=
  fun key => if key = "model" then some (JsonValue.str model) else settings key

/-- A data URI in the sense of the history invariant: the stored URL string
begins with "data:". -/
def isDataUri (u : String) : Bool := pyStartsWith u "data:"

/-- A fetch oracle where every URL fetch fails; used to instantiate
theorems at concrete inputs whose segments never reach the network. -/
def fetchNone : String → FetchOutcome := fun _ => FetchOutcome.err

/-- A sample user turn for concrete instantiations. -/
def exampleUserTurn : Turn := { role := "user", content := Content.str "hi" }

/-- A sample stored settings document for concrete instantiations. -/
def exampleSettings : String → Option JsonValue :=
  fun key => if key = "temperature" then some (JsonValue.num 1) else none

/-! Helper lemmas. -/

theorem toList_append (a b : String) : (a ++ b).toList = a.toList ++ b.toList := rfl

theorem isDataUri_of_dataImage (u : String)
    (h : pyStartsWith u "data:image/" = true) : isDataUri u = true := by
  simp only [pyStartsWith, isDataUri, List.isPrefixOf_iff_prefix] at h ⊢
  have h2 : ("data:".toList) <+: ("data:image/".toList) := ⟨"image/".toList, by decide⟩
  exact h2.trans h

theorem normalize_isDataUri (fileValue base64Value : String) (mime : Option String) :
    isDataUri (normalizeImageDataUrl fileValue base64Value mime) = true := by
  unfold normalizeImageDataUrl
  cases hb : pyStartsWith base64Value "data:image/" with
  | true => simpa [hb] using isDataUri_of_dataImage base64Value hb
  | false =>
      simp only [hb, Bool.false_eq_true, if_false]
      simp [isDataUri, pyStartsWith, toList_append, List.append_assoc]

theorem buildImagePart_isDataUri (fetch : String → FetchOutcome) (seg : ImageSegData)
    (part : ContentPart) (h : buildImagePart fetch seg = some part) :
    ∃ u, part = ContentPart.imageUrl u ∧ isDataUri u = true := by
  simp only [buildImagePart] at h
  repeat' split at h
  all_goals
    first
    | (rw [Option.some.injEq] at h
       exact ⟨_, h.symm, normalize_isDataUri _ _ _⟩)
    | exact absurd h (by simp)

theorem flushText_image_mem (textBuffer : List String) (parts : List ContentPart)
    (u : String) (h : ContentPart.imageUrl u ∈ flushText textBuffer parts) :
    ContentPart.imageUrl u ∈ parts := by
  simp only [flushText] at h
  split at h
  · exact h
  · split at h
    · exact h
    · rcases List.mem_append.mp h with h1 | h1
      · exact h1
      · simp at h1

theorem assembleParts_image_dataUri (fetch : String → FetchOutcome) :
    ∀ (msg : List Segment) (textBuffer : List String) (parts : List ContentPart),
    (∀ u, ContentPart.imageUrl u ∈ parts → isDataUri u = true) →
    ∀ u, ContentPart.imageUrl u ∈ assembleParts fetch msg textBuffer parts →
    isDataUri u = true := by
  intro msg
  induction msg with
  | nil =>
      intro textBuffer parts hinv u hu
      exact hinv u (flushText_image_mem textBuffer parts u hu)
  | cons seg rest ih =>
      intro textBuffer parts hinv u hu
      cases seg with
      | text t => exact ih (textBuffer ++ [t]) parts hinv u hu
      | other => exact ih textBuffer parts hinv u hu
      | image segData =>
          simp only [assembleParts] at hu
          cases hpart : buildImagePart fetch segData with
          | none =>
              rw [hpart] at hu
              exact ih [] (flushText textBuffer parts)
                (fun v hv => hinv v (flushText_image_mem _ _ v hv)) u hu
          | some part =>
              rw [hpart] at hu
              refine ih [] (flushText textBuffer parts ++ [part]) ?_ u hu
              intro v hv
              rcases List.mem_append.mp hv with h' | h'
              · exact hinv v (flushText_image_mem _ _ v h')
              · obtain ⟨w, hw, hwuri⟩ := buildImagePart_isDataUri fetch segData part hpart
                have : ContentPart.imageUrl v = part := by simpa using h'
                rw [← this] at hw
                cases hw
                exact hwuri

/-! Claim theorems. -/

/-- C1: after the handlers append the new user/assistant pair to the loaded
history, the trimmed result has length at most MAX_CONTEXT_MESSAGES, the
retained entries are exactly the most recent entries of the appended
sequence in original order (oldest dropped first, expressed as a drop of
the appended list), and the persisted document is exactly this trimmed
value (trim after append, before persist). -/
theorem history_window_invariant (history : List Turn) (userMsg : Turn) (reply : String)
    (hreply : reply ≠ "") :
    (appendAndTrim history userMsg (assistantTurn reply)).length ≤ MAX_CONTEXT_MESSAGES
    ∧ appendAndTrim history userMsg (assistantTurn reply)
        = (history ++ [userMsg, assistantTurn reply]).drop
            ((history ++ [userMsg, assistantTurn reply]).length - MAX_CONTEXT_MESSAGES)
    ∧ handlerPersist history userMsg reply
        = some (appendAndTrim history userMsg (assistantTurn reply)) := by
  refine ⟨?_, ?_, ?_⟩
  · simp only [appendAndTrim]
    split
    · next hgt => simp only [List.length_drop]; omega
    · next hle => omega
  · simp only [appendAndTrim]
    split
    · rfl
    · next hle =>
        have h0 : (history ++ [userMsg, assistantTurn reply]).length
            - MAX_CONTEXT_MESSAGES = 0 := by omega
        rw [h0, List.drop_zero]
  · simp [handlerPersist, hreply]

/-- C1 witness at a concrete session state. -/
theorem history_window_invariant_witness :
    (appendAndTrim [] exampleUserTurn (assistantTurn "ok")).length ≤ MAX_CONTEXT_MESSAGES
    ∧ appendAndTrim [] exampleUserTurn (assistantTurn "ok")
        = ([] ++ [exampleUserTurn, assistantTurn "ok"]).drop
            (([] ++ [exampleUserTurn, assistantTurn "ok"]).length - MAX_CONTEXT_MESSAGES)
    ∧ handlerPersist [] exampleUserTurn "ok"
        = some (appendAndTrim [] exampleUserTurn (assistantTurn "ok")) :=
  history_window_invariant [] exampleUserTurn "ok" (by decide)

/-- C3: an empty (falsy) reply skips persistence entirely: the handler
saves nothing and the stored history document is unchanged. -/
theorem empty_reply_skips_persistence (stored : List Turn) (userMsg : Turn) (reply : String)
    (h : reply = "") :
    handlerPersist stored userMsg reply = none
    ∧ contextAfterTurn stored userMsg reply = stored := by
  subst h
  exact ⟨rfl, rfl⟩

/-- C3 witness at a concrete session state. -/
theorem empty_reply_skips_persistence_witness :
    handlerPersist [exampleUserTurn] exampleUserTurn "" = none
    ∧ contextAfterTurn [exampleUserTurn] exampleUserTurn "" = [exampleUserTurn] :=
  empty_reply_skips_persistence [exampleUserTurn] exampleUserTurn "" rfl

/-- C5: with no API key configured, _call_openai issues no network request
and returns the fixed missing-key notice, for every message array, model
and upstream behaviour. -/
theorem missing_key_no_network (messages : List Turn) (model apiKey : String)
    (upstream : UpstreamResult) (h : apiKey = "") :
    (callOpenai messages model apiKey upstream).reply = missingKeyNotice
    ∧ (callOpenai messages model apiKey upstream).networkCalled = false := by
  subst h
  exact ⟨rfl, rfl⟩

/-- C5 witness at a concrete call. -/
theorem missing_key_no_network_witness :
    (callOpenai [] "gpt-4o" "" UpstreamResult.otherError).reply = missingKeyNotice
    ∧ (callOpenai [] "gpt-4o" "" UpstreamResult.otherError).networkCalled = false :=
  missing_key_no_network [] "gpt-4o" "" UpstreamResult.otherError rfl

/-- C6: on the two-segment message text "hi" then image with inline base64
"AAAA", _build_user_message returns a two-part user turn: the flushed text
part "hi" first, then an image part whose URL is the png data URI (png
being the default MIME for a file name with no recognized extension), so
the URL starts with "data:image/png;base64,". -/
theorem buildUserMessage_text_image_example (fetch : String → FetchOutcome) :
    buildUserMessage fetch
        [Segment.text "hi", Segment.image { file := "", base64 := "AAAA", url := "" }]
      = some { role := "user", content := Content.parts [ContentPart.text "hi",
          ContentPart.imageUrl "data:image/png;base64,AAAA"] }
    ∧ pyStartsWith "data:image/png;base64,AAAA" "data:image/png;base64," = true := by
  exact ⟨rfl, by decide⟩

/-- C7: whenever assembly of an inbound message yields exactly one part and
that part is text, _build_user_message collapses the content to the plain
string (no part-array wrapper). -/
theorem buildUserMessage_single_text_collapses
    (fetch : String → FetchOutcome) (message : List Segment) (t : String)
    (h : assembleParts fetch message [] [] = [ContentPart.text t]) :
    buildUserMessage fetch message = some { role := "user", content := Content.str t } := by
  unfold buildUserMessage
  rw [h]

/-- C7 witness: the single text segment "hello" collapses to scalar
content "hello". -/
theorem buildUserMessage_single_text_witness :
    buildUserMessage fetchNone [Segment.text "hello"]
      = some { role := "user", content := Content.str "hello" } :=
  buildUserMessage_single_text_collapses fetchNone [Segment.text "hello"] "hello" (by decide)

/-- C4: every image content part of a built user turn carries a data URI as
its url, for every fetch behaviour and every inbound message: inline base64
is normalized into a data URI, a remote URL is replaced by the data URI
built from the fetched bytes (failed fetches contribute no part at all),
and a raw remote URL is never stored as the durable image content. -/
theorem builtTurn_image_parts_are_data_uris
    (fetch : String → FetchOutcome) (message : List Segment) (turn : Turn)
    (ps : List ContentPart) (u : String)
    (hbuild : buildUserMessage fetch message = some turn)
    (hcontent : turn.content = Content.parts ps)
    (hmem : ContentPart.imageUrl u ∈ ps) : isDataUri u = true := by
  have key := assembleParts_image_dataUri fetch message [] [] (by simp)
  unfold buildUserMessage at hbuild
  cases hr : assembleParts fetch message [] [] with
  | nil => rw [hr] at hbuild; exact absurd hbuild (by simp)
  | cons p rest =>
      cases rest with
      | nil =>
          cases p with
          | text t =>
              rw [hr] at hbuild
              rw [Option.some.injEq] at hbuild
              rw [← hbuild] at hcontent
              exact absurd hcontent (by simp)
          | imageUrl v =>
              rw [hr] at hbuild
              rw [Option.some.injEq] at hbuild
              rw [← hbuild] at hcontent
              simp only [Content.parts.injEq] at hcontent
              rw [← hcontent] at hmem
              exact key u (hr ▸ hmem)
      | cons q rest2 =>
          rw [hr] at hbuild
          cases p <;>
            (injection hbuild with hb2
             rw [← hb2] at hcontent
             simp only [Content.parts.injEq] at hcontent
             rw [← hcontent] at hmem
             exact key u (hr ▸ hmem))

/-- C4 witness: the data-URI property evaluated on the concrete built turn
of the two-segment message from the spec example. -/
theorem builtTurn_image_parts_witness : isDataUri "data:image/png;base64,AAAA" = true :=
  builtTurn_image_parts_are_data_uris fetchNone
    [Segment.text "hi", Segment.image { file := "", base64 := "AAAA", url := "" }]
    { role := "user", content := Content.parts [ContentPart.text "hi",
        ContentPart.imageUrl "data:image/png;base64,AAAA"] }
    [ContentPart.text "hi", ContentPart.imageUrl "data:image/png;base64,AAAA"]
    "data:image/png;base64,AAAA" (by decide) (by decide) (by decide)

/-- C2 counterexample: on upstream status 502 the user-visible reply of
_call_openai is the notice with the status code embedded verbatim, so the
status code IS shown to the end user, refuting the claim that neither the
status code nor the body is shown verbatim. -/
theorem upstream_status_shown_to_user :
    (callOpenai [] "gpt-4o" "key" (UpstreamResult.httpStatusError 502 "oops")).reply
      = "上游返回错误 502，请稍后再试。"
    ∧ pyContains
        (callOpenai [] "gpt-4o" "key" (UpstreamResult.httpStatusError 502 "oops")).reply
        (toString 502) = true := by
  exact ⟨rfl, by decide⟩

/-- C2 (amended): on a non-2xx upstream status the call returns the
upstream-error notice, which embeds the numeric status code but is
independent of the response body; the status code and the body truncated
to its first 1000 characters (with "..." appended when longer) are logged. -/
theorem upstream_error_handling (messages : List Turn) (model apiKey : String)
    (status : Nat) (body : String) (h : apiKey ≠ "") :
    (callOpenai messages model apiKey (UpstreamResult.httpStatusError status body)).reply
      = upstreamErrorNotice status
    ∧ (callOpenai messages model apiKey (UpstreamResult.httpStatusError status body)).loggedStatus
      = some status
    ∧ (callOpenai messages model apiKey (UpstreamResult.httpStatusError status body)).loggedBody
      = some (truncateBody body)
    ∧ ∀ body2,
        (callOpenai messages model apiKey (UpstreamResult.httpStatusError status body2)).reply
          = upstreamErrorNotice status := by
  refine ⟨?_, ?_, ?_, fun body2 => ?_⟩ <;> simp [callOpenai, h]

/-- C2 amended witness at a concrete failing call. -/
theorem upstream_error_handling_witness :
    (callOpenai [] "gpt-4o" "key" (UpstreamResult.httpStatusError 404 "missing")).reply
      = upstreamErrorNotice 404
    ∧ (callOpenai [] "gpt-4o" "key" (UpstreamResult.httpStatusError 404 "missing")).loggedStatus
      = some 404
    ∧ (callOpenai [] "gpt-4o" "key" (UpstreamResult.httpStatusError 404 "missing")).loggedBody
      = some (truncateBody "missing")
    ∧ ∀ body2,
        (callOpenai [] "gpt-4o" "key" (UpstreamResult.httpStatusError 404 body2)).reply
          = upstreamErrorNotice 404 :=
  upstream_error_handling [] "gpt-4o" "key" 404 "missing" (by decide)

theorem upstreamErrorNotice_ne_empty (status : Nat) : upstreamErrorNotice status ≠ "" := by
  intro h
  unfold upstreamErrorNotice at h
  have hd : ("上游返回错误 " ++ toString status ++ "，请稍后再试。").data = [] :=
    congrArg String.data h
  rw [String.data_append, String.data_append] at hd
  rcases List.append_eq_nil.mp hd with ⟨h1, h2⟩
  rcases List.append_eq_nil.mp h1 with ⟨h3, h4⟩
  exact absurd h3 (by decide)

/-- C9: every failure outcome of _call_openai (missing key, non-2xx status,
other exception) returns a non-empty notice string, so the handler, which
skips persistence only on empty replies, appends the user turn and an
assistant turn holding the notice and persists both. -/
theorem failure_notice_persisted (messages : List Turn) (model apiKey : String)
    (upstream : UpstreamResult) (history : List Turn) (userMsg : Turn)
    (hfail : apiKey = "" ∨ ∀ c, upstream ≠ UpstreamResult.success c) :
    (callOpenai messages model apiKey upstream).reply ≠ ""
    ∧ handlerPersist history userMsg (callOpenai messages model apiKey upstream).reply
        = some (appendAndTrim history userMsg
            (assistantTurn (callOpenai messages model apiKey upstream).reply)) := by
  have hne : (callOpenai messages model apiKey upstream).reply ≠ "" := by
    by_cases hk : apiKey = ""
    · simp only [callOpenai, hk, if_true, if_pos]
      decide
    · cases upstream with
      | success c =>
          rcases hfail with h | h
          · exact absurd h hk
          · exact absurd rfl (h c)
      | httpStatusError status body =>
          simp only [callOpenai, hk, if_false, if_neg, not_false_eq_true]
          exact upstreamErrorNotice_ne_empty status
      | otherError =>
          simp only [callOpenai, hk, if_false, if_neg, not_false_eq_true]
          decide
  exact ⟨hne, by simp [handlerPersist, hne]⟩

/-- C9 witness at a concrete failing call (missing API key). -/
theorem failure_notice_persisted_witness :
    (callOpenai [] "m" "" UpstreamResult.otherError).reply ≠ ""
    ∧ handlerPersist [] exampleUserTurn (callOpenai [] "m" "" UpstreamResult.otherError).reply
        = some (appendAndTrim [] exampleUserTurn
            (assistantTurn (callOpenai [] "m" "" UpstreamResult.otherError).reply)) :=
  failure_notice_persisted [] "m" "" UpstreamResult.otherError [] exampleUserTurn (Or.inl rfl)

/-- C8: capability inference is a pure function of the model identifier
string: every identifier gets the text tag; the vision tag is present
exactly when the lowered identifier contains "vision" or "gpt-4o"; the
reasoning tag exactly when it starts with "o1" or contains "reason".  The
code renders the tags as the Chinese display strings 文本 (text),
视觉 (vision) and 思考 (reasoning); the three spec examples evaluate
accordingly. -/
theorem inferModelFeatures_spec :
    (∀ modelId : String,
      "文本" ∈ inferModelFeatures modelId
      ∧ ("视觉" ∈ inferModelFeatures modelId
          ↔ (pyContains (pyLower modelId) "vision" = true
              ∨ pyContains (pyLower modelId) "gpt-4o" = true))
      ∧ ("思考" ∈ inferModelFeatures modelId
          ↔ (pyStartsWith (pyLower modelId) "o1" = true
              ∨ pyContains (pyLower modelId) "reason" = true)))
    ∧ inferModelFeatures "gpt-4o-mini" = ["文本", "视觉"]
    ∧ inferModelFeatures "o1-preview" = ["文本", "思考"]
    ∧ inferModelFeatures "gpt-3.5-turbo" = ["文本"] := by
  refine ⟨?_, by decide, by decide, by decide⟩
  intro modelId
  cases hv : pyContains (pyLower modelId) "vision" <;>
  cases hg : pyContains (pyLower modelId) "gpt-4o" <;>
  cases ho : pyStartsWith (pyLower modelId) "o1" <;>
  cases hr : pyContains (pyLower modelId) "reason" <;>
  simp [inferModelFeatures, hv, hg, ho, hr]

/-- C10: _set_user_model rewrites exactly the model field of the loaded
settings document; every other field keeps its loaded value in the saved
document. -/
theorem setUserModel_frame (settings : String → Option JsonValue) (model : String) :
    setUserModel settings model "model" = some (JsonValue.str model)
    ∧ ∀ key, key ≠ "model" → setUserModel settings model key = settings key := by
  refine ⟨by simp [setUserModel], fun key hk => by simp [setUserModel, hk]⟩

/-- C10 witness on a concrete settings document with an unrelated field. -/
theorem setUserModel_frame_witness :
    setUserModel exampleSettings "gpt-4o" "model" = some (JsonValue.str "gpt-4o")
    ∧ setUserModel exampleSettings "gpt-4o" "temperature" = exampleSettings "temperature" :=
  ⟨(setUserModel_frame exampleSettings "gpt-4o").1,
   (setUserModel_frame exampleSettings "gpt-4o").2 "temperature" (by decide)⟩
